import Mathlib

/-!
Shallow embedding of the fluid-simulation core of this repository
(the `FluidSim` class in `sim.js` together with its GLSL kernels, the
`gl-helpers.js` capability checks, and the `tick` frame driver in `app.js`).

Field textures are modelled as total functions `ℤ → ℤ → V` over exact reals;
GLSL `texture` reads with NEAREST filtering and CLAMP_TO_EDGE wrapping become
index clamping after a floor, and the manual `bilerp` of the shaders is
reproduced literally.  Double-buffered render targets (`makeDoubleFBO`) are
pairs of framebuffer records whose `swap` exchanges the two sides.
-/

namespace FluidSpec

noncomputable section

abbrev Vec2 := ℝ × ℝ
abbrev Vec3 := ℝ × ℝ × ℝ
abbrev Vec4 := ℝ × ℝ × ℝ × ℝ

/-- A field texture: per-cell values, addressed by integer cell indices. -/
abbrev Grid (V : Type) := ℤ → ℤ → V

/-- CLAMP_TO_EDGE index clamping into `[0, n-1]`. -/
def cidx (n i : ℤ) : ℤ := max 0 (min (n - 1) i)

/-- GLSL `texture(tex, (u,v))` with NEAREST filtering and CLAMP_TO_EDGE:
the texel containing the coordinate, indices clamped to the edge. -/
def samp {V : Type} (g : Grid V) (w h : ℤ) (u v : ℝ) : V :=
  g (cidx w ⌊u * (w : ℝ)⌋) (cidx h ⌊v * (h : ℝ)⌋)

/-- The uv coordinate of a fragment at cell `x`: `gl_FragCoord.x * u_texelSize.x`
where `gl_FragCoord.x = x + 0.5` and `u_texelSize.x = 1/w`. -/
def cuv (w x : ℤ) : ℝ := ((x : ℝ) + 1/2) / (w : ℝ)

/-- GLSL `mix(x, y, a) = x*(1-a) + y*a`. -/
def mix {V : Type} [AddCommGroup V] [Module ℝ V] (x y : V) (a : ℝ) : V :=
  (1 - a) • x + a • y

/-- The shaders' manual bilinear sampler `bilerp(tex, uv, resolution)`:
`xy = uv*res - 0.5`, integer part and fraction, then four NEAREST reads at the
texel centers `base = (ixy+0.5)/res` blended with the bilinear weights. -/
def bilerp {V : Type} [AddCommGroup V] [Module ℝ V] (g : Grid V) (w h : ℤ) (u v : ℝ) : V :=
  let xx := u * (w : ℝ) - 1/2
  let yy := v * (h : ℝ) - 1/2
  let ix := ⌊xx⌋
  let iy := ⌊yy⌋
  let fx := xx - (ix : ℝ)
  let fy := yy - (iy : ℝ)
  let c00 := samp g w h (((ix : ℝ) + 1/2) / (w : ℝ)) (((iy : ℝ) + 1/2) / (h : ℝ))
  let c10 := samp g w h (((ix : ℝ) + 1/2) / (w : ℝ) + 1/(w : ℝ)) (((iy : ℝ) + 1/2) / (h : ℝ))
  let c01 := samp g w h (((ix : ℝ) + 1/2) / (w : ℝ)) (((iy : ℝ) + 1/2) / (h : ℝ) + 1/(h : ℝ))
  let c11 := samp g w h (((ix : ℝ) + 1/2) / (w : ℝ) + 1/(w : ℝ)) (((iy : ℝ) + 1/2) / (h : ℝ) + 1/(h : ℝ))
  mix (mix c00 c10 fx) (mix c01 c11 fx) fy

/-- FS_CURL: `curl = R - L - (T - B)` with `L,R` the `.y` of the horizontal
velocity neighbours and `B,T` the `.x` of the vertical ones. -/
def curlK (vel : Grid Vec2) (w h : ℤ) : Grid ℝ := fun x y =>
  let u := cuv w x
  let v := cuv h y
  let L := (samp vel w h (u - 1/(w : ℝ)) v).2
  let R := (samp vel w h (u + 1/(w : ℝ)) v).2
  let B := (samp vel w h u (v - 1/(h : ℝ))).1
  let T := (samp vel w h u (v + 1/(h : ℝ))).1
  R - L - (T - B)

/-- FS_VORTICITY: gradient of `|curl|` over the four neighbours, normalised by
`length(grad) + 1e-5`, rotated to `(N.y, -N.x)`, scaled by
`u_eps * curl * u_dt` and added to the velocity. -/
def vortK (vel : Grid Vec2) (curl : Grid ℝ) (w h : ℤ) (dt eps : ℝ) : Grid Vec2 := fun x y =>
  let u := cuv w x
  let v := cuv h y
  let L := |samp curl w h (u - 1/(w : ℝ)) v|
  let R := |samp curl w h (u + 1/(w : ℝ)) v|
  let B := |samp curl w h u (v - 1/(h : ℝ))|
  let T := |samp curl w h u (v + 1/(h : ℝ))|
  let gx := R - L
  let gy := T - B
  let mag := Real.sqrt (gx * gx + gy * gy) + 1e-5
  let nx := gx / mag
  let ny := gy / mag
  let c := samp curl w h u v
  let vv := samp vel w h u v
  (vv.1 + eps * ny * c * dt, vv.2 + eps * (-nx) * c * dt)

/-- FS_ADVECT: semi-Lagrangian backtrace
`coord = uv - dt * vel * (res.y/res.x, 1)`, bilinear sample of the source at
the backtraced coordinate, scaled by the dissipation factor. -/
def advectK {V : Type} [AddCommGroup V] [Module ℝ V] (src : Grid V) (vel : Grid Vec2)
    (w h : ℤ) (dt diss : ℝ) : Grid V := fun x y =>
  let u := cuv w x
  let v := cuv h y
  let vv := samp vel w h u v
  let cx := u - dt * vv.1 * ((h : ℝ) / (w : ℝ))
  let cy := v - dt * vv.2
  diss • bilerp src w h cx cy

/-- FS_DIVERGENCE: `div = 0.5 * ((R.x - L.x) + (T.y - B.y))`. -/
def divK (vel : Grid Vec2) (w h : ℤ) : Grid ℝ := fun x y =>
  let u := cuv w x
  let v := cuv h y
  let L := samp vel w h (u - 1/(w : ℝ)) v
  let R := samp vel w h (u + 1/(w : ℝ)) v
  let B := samp vel w h u (v - 1/(h : ℝ))
  let T := samp vel w h u (v + 1/(h : ℝ))
  0.5 * ((R.1 - L.1) + (T.2 - B.2))

/-- FS_PRESSURE: one Jacobi iteration
`p = (L + R + B + T - div) * 0.25`, reading a pressure grid and the divergence. -/
def pressK (p dv : Grid ℝ) (w h : ℤ) : Grid ℝ := fun x y =>
  let u := cuv w x
  let v := cuv h y
  let L := samp p w h (u - 1/(w : ℝ)) v
  let R := samp p w h (u + 1/(w : ℝ)) v
  let B := samp p w h u (v - 1/(h : ℝ))
  let T := samp p w h u (v + 1/(h : ℝ))
  let d := samp dv w h u v
  (L + R + B + T - d) * 0.25

/-- FS_GRADIENT: `v - 0.5 * (R - L, T - B)` with central differences of the
pressure. -/
def gradK (vel : Grid Vec2) (p : Grid ℝ) (w h : ℤ) : Grid Vec2 := fun x y =>
  let u := cuv w x
  let v := cuv h y
  let L := samp p w h (u - 1/(w : ℝ)) v
  let R := samp p w h (u + 1/(w : ℝ)) v
  let B := samp p w h u (v - 1/(h : ℝ))
  let T := samp p w h u (v + 1/(h : ℝ))
  let vv := samp vel w h u v
  (vv.1 - 0.5 * (R - L), vv.2 - 0.5 * (T - B))

/-- FS_SPLAT weight: `exp(-dot(d,d) / (r*r + 1e-6))` with `d = uv - u_point`. -/
def splatA (pt : Vec2) (r : ℝ) (w h : ℤ) (x y : ℤ) : ℝ :=
  let dx := cuv w x - pt.1
  let dy := cuv h y - pt.2
  Real.exp (-(dx * dx + dy * dy) / (r * r + 1e-6))

/-- FS_SPLAT on the dye target (RGBA16F stores all four output channels):
`frag = base + vec4(u_value * a, 1.0)`. -/
def splatDyeK (base : Grid Vec4) (w h : ℤ) (pt : Vec2) (val : Vec3) (r : ℝ) : Grid Vec4 :=
  fun x y =>
  let a := splatA pt r w h x y
  let b := samp base w h (cuv w x) (cuv h y)
  (b.1 + val.1 * a, b.2.1 + val.2.1 * a, b.2.2.1 + val.2.2 * a, b.2.2.2 + 1)

/-- FS_SPLAT on the velocity target (RG16F keeps only the first two output
channels): `frag.xy = base.xy + u_value.xy * a`. -/
def splatVelK (base : Grid Vec2) (w h : ℤ) (pt : Vec2) (val : Vec3) (r : ℝ) : Grid Vec2 :=
  fun x y =>
  let a := splatA pt r w h x y
  let b := samp base w h (cuv w x) (cuv h y)
  (b.1 + val.1 * a, b.2 + val.2.1 * a)

/-- A framebuffer-backed texture (`makeFBO`): contents plus its dimensions. -/
structure FBO (V : Type) where
  data : Grid V
  w : ℤ
  h : ℤ

/-- A double FBO (`makeDoubleFBO`): a read side `a` and a write side `b`. -/
structure DFBO (V : Type) where
  a : FBO V
  b : FBO V

/-- The `swap()` of a double FBO: the two sides exchange roles wholesale. -/
def DFBO.swap {V : Type} (d : DFBO V) : DFBO V := ⟨d.b, d.a⟩

/-- Render a kernel into the write side of a double FBO. -/
def DFBO.writeData {V : Type} (d : DFBO V) (g : Grid V) : DFBO V :=
  ⟨d.a, ⟨g, d.b.w, d.b.h⟩⟩

/-- The five field buffers allocated by `FluidSim._allocate`. -/
structure SimState where
  velocity : DFBO Vec2
  pressure : DFBO ℝ
  divergence : FBO ℝ
  curl : FBO ℝ
  dye : DFBO Vec4

/-- `FluidSim._allocate(width, height)`: all five fields freshly created at the
same dimensions; new textures are zero-filled. -/
def allocSim (w h : ℤ) : SimState where
  velocity := ⟨⟨fun _ _ => (0, 0), w, h⟩, ⟨fun _ _ => (0, 0), w, h⟩⟩
  pressure := ⟨⟨fun _ _ => 0, w, h⟩, ⟨fun _ _ => 0, w, h⟩⟩
  divergence := ⟨fun _ _ => 0, w, h⟩
  curl := ⟨fun _ _ => 0, w, h⟩
  dye := ⟨⟨fun _ _ => (0, 0, 0, 0), w, h⟩, ⟨fun _ _ => (0, 0, 0, 0), w, h⟩⟩

/-- The settings object of the `FluidSim` constructor.  The two resolution
inputs (`qualityScale`, `maxDPR`) are kept as rationals so that the resize
logic is decidable; the solver parameters live in `ℝ` with the field values. -/
structure Settings where
  dyeDissipation : ℝ
  velDissipation : ℝ
  pressureIters : ℕ
  vorticity : ℝ
  splatRadius : ℝ
  qualityScale : ℚ
  maxDPR : ℚ

/-- The defaults assigned in the constructor before `Object.assign(settings, options)`. -/
def defaultSettings : Settings where
  dyeDissipation := 0.995
  velDissipation := 0.998
  pressureIters := 18
  vorticity := 1
  splatRadius := 0.015
  qualityScale := 0.75
  maxDPR := 1.8

/-- Curl pass of `step`: writes the single-buffered curl FBO from `velocity.read`. -/
def stageCurl (w h : ℤ) (s : SimState) : SimState :=
  { s with curl := ⟨curlK s.velocity.a.data w h, s.curl.w, s.curl.h⟩ }

/-- Vorticity-confinement pass of `step`, executed only when
`settings.vorticity > 0.0`: writes `velocity.write` from `velocity.read` and
the curl FBO, then swaps. -/
def stageVort (cfg : Settings) (dt : ℝ) (w h : ℤ) (s : SimState) : SimState :=
  if cfg.vorticity > 0 then
    { s with velocity :=
        (s.velocity.writeData (vortK s.velocity.a.data s.curl.data w h dt cfg.vorticity)).swap }
  else s

/-- Velocity self-advection pass of `step`: source and velocity are both
`velocity.read`; writes `velocity.write`, then swaps. -/
def stageAdvV (cfg : Settings) (dt : ℝ) (w h : ℤ) (s : SimState) : SimState :=
  { s with velocity :=
      (s.velocity.writeData
        (advectK s.velocity.a.data s.velocity.a.data w h dt cfg.velDissipation)).swap }

/-- Divergence pass of `step`: writes the single-buffered divergence FBO from
the post-advection `velocity.read`. -/
def stageDiv (w h : ℤ) (s : SimState) : SimState :=
  { s with divergence := ⟨divK s.velocity.a.data w h, s.divergence.w, s.divergence.h⟩ }

/-- One iteration of the pressure loop body: write `pressure.write` from
`pressure.read` and the divergence FBO, then swap. -/
def pressOnce (dv : Grid ℝ) (w h : ℤ) (pr : DFBO ℝ) : DFBO ℝ :=
  (pr.writeData (pressK pr.a.data dv w h)).swap

/-- Pressure-projection stage of `step`: the loop
`for (i = 0; i < settings.pressureIters; i++)` over `pressOnce`. -/
def stagePress (cfg : Settings) (w h : ℤ) (s : SimState) : SimState :=
  { s with pressure := (pressOnce s.divergence.data w h)^[cfg.pressureIters] s.pressure }

/-- Gradient-subtraction pass of `step`: writes `velocity.write` from
`velocity.read` and `pressure.read`, then swaps. -/
def stageGrad (w h : ℤ) (s : SimState) : SimState :=
  { s with velocity :=
      (s.velocity.writeData (gradK s.velocity.a.data s.pressure.a.data w h)).swap }

/-- Dye-advection pass of `step`: advects `dye.read` by `velocity.read` with
the dye dissipation factor; writes `dye.write`, then swaps. -/
def stageDye (cfg : Settings) (dt : ℝ) (w h : ℤ) (s : SimState) : SimState :=
  { s with dye :=
      (s.dye.writeData (advectK s.dye.a.data s.velocity.a.data w h dt cfg.dyeDissipation)).swap }

/-- `FluidSim.step(dt)`: the fixed pass sequence, with `w`,`h` and the shared
`u_texelSize` taken once from `velocity.read` at entry.  No clamping of `dt`
happens here. -/
def stepSim (cfg : Settings) (dt : ℝ) (s : SimState) : SimState :=
  let w := s.velocity.a.w
  let h := s.velocity.a.h
  stageDye cfg dt w h
    (stageGrad w h
      (stagePress cfg w h
        (stageDiv w h
          (stageAdvV cfg dt w h
            (stageVort cfg dt w h
              (stageCurl w h s))))))

/-- The prefix of `step(dt)` up to and including the divergence pass, with the
shared `w`,`h` taken from `velocity.read` at entry as in `step`. -/
def stepThroughDiv (cfg : Settings) (dt : ℝ) (s : SimState) : SimState :=
  let w := s.velocity.a.w
  let h := s.velocity.a.h
  stageDiv w h (stageAdvV cfg dt w h (stageVort cfg dt w h (stageCurl w h s)))

/-- The prefix of `step(dt)` up to and including the pressure-projection loop. -/
def stepThroughPress (cfg : Settings) (dt : ℝ) (s : SimState) : SimState :=
  stagePress cfg s.velocity.a.w s.velocity.a.h (stepThroughDiv cfg dt s)

/-- `FluidSim.splat(point01, value3, radius01, target)`: the target double FBO
is `velocity` exactly when `target === "velocity"`, otherwise `dye`; the splat
kernel writes the target's write side from its read side, then swaps. -/
def splatOp (pt : Vec2) (val : Vec3) (r : ℝ) (target : String) (s : SimState) : SimState :=
  if target = "velocity" then
    { s with velocity :=
        (s.velocity.writeData
          (splatVelK s.velocity.a.data s.velocity.a.w s.velocity.a.h pt val r)).swap }
  else
    { s with dye :=
        (s.dye.writeData
          (splatDyeK s.dye.a.data s.dye.a.w s.dye.a.h pt val r)).swap }

/-- The canvas: CSS layout size (`clientWidth`/`clientHeight`) and the backing
store size (`canvas.width`/`canvas.height`, which is what
`gl.drawingBufferWidth`/`Height` report). -/
structure CanvasState where
  clientW : ℚ
  clientH : ℚ
  width : ℤ
  height : ℤ

/-- The whole solver instance: canvas, settings, the recorded simulation
dimensions `_w`/`_h` (absent before the first allocation), the field buffers,
and an allocation generation counter.  `gen` increases exactly when
`_dispose()` + `_allocate()` run, so it witnesses buffer identity. -/
structure FluidState where
  canvas : CanvasState
  settings : Settings
  simW : Option ℤ
  simH : Option ℤ
  sim : SimState
  gen : ℕ

/-- The file-local `clamp(v, lo, hi) = Math.max(lo, Math.min(hi, v))`. -/
def clampQ (v lo hi : ℚ) : ℚ := max lo (min hi v)

/-- `FluidSim._resize()`, with `dprRaw` standing for `window.devicePixelRatio`
(`|| 1` for a falsy zero).  Computes the target simulation dimensions, returns
unchanged when `gl.drawingBufferWidth/Height` equal those dimensions and
`_w`/`_h` equal them too; otherwise resizes the canvas backing store, disposes
and reallocates every field buffer, and records the new dimensions. -/
def resizeOp (dprRaw : ℚ) (st : FluidState) : FluidState :=
  let dpr := min (if dprRaw = 0 then 1 else dprRaw) st.settings.maxDPR
  let scale := clampQ st.settings.qualityScale 0.25 1
  let width := max 16 ⌊st.canvas.clientW * dpr * scale⌋
  let height := max 16 ⌊st.canvas.clientH * dpr * scale⌋
  if st.canvas.width = width ∧ st.canvas.height = height ∧
      st.simW = some width ∧ st.simH = some height then st
  else
    { st with
      canvas := { st.canvas with
        width := max 2 ⌊st.canvas.clientW * dpr⌋,
        height := max 2 ⌊st.canvas.clientH * dpr⌋ },
      sim := allocSim width height,
      simW := some width,
      simH := some height,
      gen := st.gen + 1 }

/-- `FluidSim.reset()`: dispose and reallocate at the recorded dimensions. -/
def resetOp (st : FluidState) : FluidState :=
  { st with sim := allocSim (st.simW.getD 0) (st.simH.getD 0), gen := st.gen + 1 }

/-- The `dt` computed by the frame driver `tick` in `app.js`:
`Math.min(0.033, Math.max(0.0, (now - lastT) / 1000))`. -/
def tickDt (nowMs lastMs : ℝ) : ℝ := min 0.033 (max 0 ((nowMs - lastMs) / 1000))

/-- The WebGL capabilities the constructor probes. -/
structure GLEnv where
  webgl2 : Bool
  colorBufferFloat : Bool

/-- `checkFloatSupport(gl)`: presence of the `EXT_color_buffer_float` extension. -/
def checkFloatSupport (env : GLEnv) : Bool := env.colorBufferFloat

/-- Constructor options: any subset of the settings may be overridden
(`Object.assign(this.settings, options)`). -/
structure Options where
  dyeDissipation : Option ℝ := none
  velDissipation : Option ℝ := none
  pressureIters : Option ℕ := none
  vorticity : Option ℝ := none
  splatRadius : Option ℝ := none
  qualityScale : Option ℚ := none
  maxDPR : Option ℚ := none

/-- `Object.assign({defaults}, options)`. -/
def mergeSettings (o : Options) : Settings where
  dyeDissipation := o.dyeDissipation.getD defaultSettings.dyeDissipation
  velDissipation := o.velDissipation.getD defaultSettings.velDissipation
  pressureIters := o.pressureIters.getD defaultSettings.pressureIters
  vorticity := o.vorticity.getD defaultSettings.vorticity
  splatRadius := o.splatRadius.getD defaultSettings.splatRadius
  qualityScale := o.qualityScale.getD defaultSettings.qualityScale
  maxDPR := o.maxDPR.getD defaultSettings.maxDPR

/-- The `FluidSim` constructor: throws when WebGL2 is unavailable, throws the
descriptive float-renderbuffer error when `checkFloatSupport` fails, otherwise
builds the instance and runs the initial `_resize()`. -/
def construct (env : GLEnv) (dprRaw : ℚ) (canvas : CanvasState) (opts : Options) :
    Except String FluidState :=
  if env.webgl2 = false then
    Except.error "WebGL2 not available"
  else if checkFloatSupport env = false then
    Except.error "Required float framebuffer support missing (EXT_color_buffer_float)"
  else
    Except.ok (resizeOp dprRaw
      { canvas := canvas, settings := mergeSettings opts,
        simW := none, simH := none, sim := allocSim 0 0, gen := 0 })

/-- A solver instance as the constructor first sees it: an 800×800 CSS-pixel
canvas with the HTML-default 300×150 backing store, default settings, nothing
allocated yet. -/
def stC1 : FluidState where
  canvas := ⟨800, 800, 300, 150⟩
  settings := defaultSettings
  simW := none
  simH := none
  sim := allocSim 0 0
  gen := 0

/-- Settings with vorticity disabled and a single pressure iteration, as the
constructor options permit (`Object.assign` accepts any subset). -/
def cfgC2 : Settings where
  dyeDissipation := 1/2
  velDissipation := 1/2
  pressureIters := 1
  vorticity := 0
  splatRadius := 0.015
  qualityScale := 0.75
  maxDPR := 1.8

/-- A uniform rightward velocity field. -/
def velC2 : Grid Vec2 := fun _ _ => (1/8, 0)

/-- A dye field marking the single column x = 5 in the red channel. -/
def dyeC2 : Grid Vec4 := fun x _ => if x = 5 then (1, 0, 0, 0) else (0, 0, 0, 0)

/-- A 16×16 state with uniform velocity, zero pressure and the marked dye. -/
def sC2 : SimState where
  velocity := ⟨⟨velC2, 16, 16⟩, ⟨fun _ _ => (0, 0), 16, 16⟩⟩
  pressure := ⟨⟨fun _ _ => 0, 16, 16⟩, ⟨fun _ _ => 0, 16, 16⟩⟩
  divergence := ⟨fun _ _ => 0, 16, 16⟩
  curl := ⟨fun _ _ => 0, 16, 16⟩
  dye := ⟨⟨dyeC2, 16, 16⟩, ⟨fun _ _ => (0, 0, 0, 0), 16, 16⟩⟩

/-- A residual pressure field that is zero left of column 8 and one from
column 8 on (constant in y). -/
def pC4 : Grid ℝ := fun x _ => if x < 8 then 0 else 1

/-- A dye field marking the single cell (7,3) in the red channel. -/
def dyeC4 : Grid Vec4 := fun x y => if x = 7 ∧ y = 3 then (1, 0, 0, 0) else (0, 0, 0, 0)

/-- A 16×16 state whose velocity field is identically zero but whose pressure
field still carries the non-constant residue `pC4`. -/
def sC4 : SimState where
  velocity := ⟨⟨fun _ _ => (0, 0), 16, 16⟩, ⟨fun _ _ => (0, 0), 16, 16⟩⟩
  pressure := ⟨⟨pC4, 16, 16⟩, ⟨fun _ _ => 0, 16, 16⟩⟩
  divergence := ⟨fun _ _ => 0, 16, 16⟩
  curl := ⟨fun _ _ => 0, 16, 16⟩
  dye := ⟨⟨dyeC4, 16, 16⟩, ⟨fun _ _ => (0, 0, 0, 0), 16, 16⟩⟩

/-- A 16×16 state with zero velocity, constant-zero pressure and a
position-dependent dye field. -/
def sC4w : SimState where
  velocity := ⟨⟨fun _ _ => (0, 0), 16, 16⟩, ⟨fun _ _ => (0, 0), 16, 16⟩⟩
  pressure := ⟨⟨fun _ _ => 0, 16, 16⟩, ⟨fun _ _ => 0, 16, 16⟩⟩
  divergence := ⟨fun _ _ => 0, 16, 16⟩
  curl := ⟨fun _ _ => 0, 16, 16⟩
  dye := ⟨⟨fun x y => ((x : ℝ), (y : ℝ), 1, 0), 16, 16⟩, ⟨fun _ _ => (0, 0, 0, 0), 16, 16⟩⟩

/-- The dimension invariant of claim C7: every one of the eight FBOs backing
the five fields has the dimensions of `velocity.read`. -/
def sameDims (s : SimState) : Prop :=
  s.velocity.b.w = s.velocity.a.w ∧ s.velocity.b.h = s.velocity.a.h ∧
  s.pressure.a.w = s.velocity.a.w ∧ s.pressure.a.h = s.velocity.a.h ∧
  s.pressure.b.w = s.velocity.a.w ∧ s.pressure.b.h = s.velocity.a.h ∧
  s.divergence.w = s.velocity.a.w ∧ s.divergence.h = s.velocity.a.h ∧
  s.curl.w = s.velocity.a.w ∧ s.curl.h = s.velocity.a.h ∧
  s.dye.a.w = s.velocity.a.w ∧ s.dye.a.h = s.velocity.a.h ∧
  s.dye.b.w = s.velocity.a.w ∧ s.dye.b.h = s.velocity.a.h

/-! Sampling and kernel lemmas. -/

theorem mix_zero {V : Type} [AddCommGroup V] [Module ℝ V] (x y : V) : mix x y 0 = x := by
  simp [mix]

theorem mix_self {V : Type} [AddCommGroup V] [Module ℝ V] (v : V) (a : ℝ) : mix v v a = v := by
  rw [mix, ← add_smul]
  norm_num

theorem samp_apply {V : Type} (g : Grid V) (w h : ℤ) (u v : ℝ) :
    samp g w h u v = g (cidx w ⌊u * (w : ℝ)⌋) (cidx h ⌊v * (h : ℝ)⌋) := rfl

theorem cuv_sub_texel (w x : ℤ) : cuv w x - 1/(w : ℝ) = cuv w (x - 1) := by
  unfold cuv
  push_cast
  ring

theorem cuv_add_texel (w x : ℤ) : cuv w x + 1/(w : ℝ) = cuv w (x + 1) := by
  unfold cuv
  push_cast
  ring

theorem cuv_mul_self {w : ℤ} (hw : 0 < w) (a : ℤ) : cuv w a * (w : ℝ) = (a : ℝ) + 1/2 := by
  have hw0 : ((w : ℝ)) ≠ 0 := by
    exact_mod_cast ne_of_gt (by exact_mod_cast hw : (0 : ℝ) < (w : ℝ))
  rw [cuv, div_mul_cancel₀ _ hw0]

theorem floor_add_half (a : ℤ) : ⌊(a : ℝ) + 1/2⌋ = a := by
  rw [Int.floor_eq_iff]
  constructor
  · linarith
  · linarith

theorem samp_cuv {V : Type} (g : Grid V) {w h : ℤ} (hw : 0 < w) (hh : 0 < h) (a b : ℤ) :
    samp g w h (cuv w a) (cuv h b) = g (cidx w a) (cidx h b) := by
  rw [samp_apply, cuv_mul_self hw, cuv_mul_self hh, floor_add_half, floor_add_half]

theorem cidx_of_range {n i : ℤ} (h0 : 0 ≤ i) (h1 : i < n) : cidx n i = i := by
  unfold cidx
  omega

theorem bilerp_cuv {V : Type} [AddCommGroup V] [Module ℝ V] (g : Grid V) {w h : ℤ}
    (hw : 0 < w) (hh : 0 < h) (a b : ℤ) :
    bilerp g w h (cuv w a) (cuv h b) = g (cidx w a) (cidx h b) := by
  simp only [bilerp, cuv_mul_self hw, cuv_mul_self hh, add_sub_cancel_right,
    Int.floor_intCast, sub_self, mix_zero]
  exact samp_cuv g hw hh a b

theorem bilerp_of_const {V : Type} [AddCommGroup V] [Module ℝ V] {g : Grid V} {c : V}
    (hg : ∀ x y, g x y = c) (w h : ℤ) (u v : ℝ) : bilerp g w h u v = c := by
  simp only [bilerp, samp, hg, mix_self]

theorem curlK_of_const {vel : Grid Vec2} {c : Vec2} (hv : ∀ x y, vel x y = c)
    (w h x y : ℤ) : curlK vel w h x y = 0 := by
  simp only [curlK, samp, hv]
  ring

theorem vortK_of_zeroCurl {vel : Grid Vec2} {curl : Grid ℝ} {cv : Vec2}
    (hv : ∀ x y, vel x y = cv) (hc : ∀ x y, curl x y = 0)
    (w h : ℤ) (dt eps : ℝ) (x y : ℤ) : vortK vel curl w h dt eps x y = cv := by
  simp only [vortK, samp, hv, hc]
  norm_num

theorem advectK_of_const {V : Type} [AddCommGroup V] [Module ℝ V]
    {src : Grid V} {vel : Grid Vec2} {c : V} {cv : Vec2}
    (hs : ∀ x y, src x y = c) (hv : ∀ x y, vel x y = cv)
    (w h : ℤ) (dt diss : ℝ) (x y : ℤ) : advectK src vel w h dt diss x y = diss • c := by
  simp only [advectK, samp, hv]
  rw [bilerp_of_const hs]

theorem divK_of_const {vel : Grid Vec2} {c : Vec2} (hv : ∀ x y, vel x y = c)
    (w h x y : ℤ) : divK vel w h x y = 0 := by
  simp only [divK, samp, hv]
  ring

theorem pressK_of_const {p dv : Grid ℝ} {c : ℝ} (hp : ∀ x y, p x y = c)
    (hd : ∀ x y, dv x y = 0) (w h x y : ℤ) : pressK p dv w h x y = c := by
  simp only [pressK, samp, hp, hd]
  ring

theorem gradK_of_constP {vel : Grid Vec2} {p : Grid ℝ} {pc : ℝ} {cv : Vec2}
    (hp : ∀ x y, p x y = pc) (hv : ∀ x y, vel x y = cv)
    (w h x y : ℤ) : gradK vel p w h x y = cv := by
  simp only [gradK, samp, hp, hv]
  norm_num

theorem pressK_apply (p dv : Grid ℝ) {w h : ℤ} (hw : 0 < w) (hh : 0 < h) (x y : ℤ) :
    pressK p dv w h x y =
      (p (cidx w (x - 1)) (cidx h y) + p (cidx w (x + 1)) (cidx h y) +
        p (cidx w x) (cidx h (y - 1)) + p (cidx w x) (cidx h (y + 1)) -
        dv (cidx w x) (cidx h y)) * 0.25 := by
  simp only [pressK]
  rw [cuv_sub_texel w x, cuv_add_texel w x, cuv_sub_texel h y, cuv_add_texel h y,
    samp_cuv p hw hh, samp_cuv p hw hh, samp_cuv p hw hh, samp_cuv p hw hh,
    samp_cuv dv hw hh]

theorem gradK_apply (vel : Grid Vec2) (p : Grid ℝ) {w h : ℤ} (hw : 0 < w) (hh : 0 < h)
    (x y : ℤ) :
    gradK vel p w h x y =
      ((vel (cidx w x) (cidx h y)).1 -
         0.5 * (p (cidx w (x + 1)) (cidx h y) - p (cidx w (x - 1)) (cidx h y)),
       (vel (cidx w x) (cidx h y)).2 -
         0.5 * (p (cidx w x) (cidx h (y + 1)) - p (cidx w x) (cidx h (y - 1)))) := by
  simp only [gradK]
  rw [cuv_sub_texel w x, cuv_add_texel w x, cuv_sub_texel h y, cuv_add_texel h y,
    samp_cuv p hw hh, samp_cuv p hw hh, samp_cuv p hw hh, samp_cuv p hw hh,
    samp_cuv vel hw hh]

theorem advectK_of_constVel {V : Type} [AddCommGroup V] [Module ℝ V]
    (src : Grid V) {vel : Grid Vec2} {cv : Vec2} (hv : ∀ x y, vel x y = cv)
    (w h : ℤ) (dt diss : ℝ) (x y : ℤ) :
    advectK src vel w h dt diss x y =
      diss • bilerp src w h (cuv w x - dt * cv.1 * ((h : ℝ) / (w : ℝ)))
        (cuv h y - dt * cv.2) := by
  simp only [advectK, samp, hv]

theorem advectK_zeroVel {V : Type} [AddCommGroup V] [Module ℝ V]
    (src : Grid V) {vel : Grid Vec2} (hv : ∀ x y, vel x y = (0, 0))
    {w h : ℤ} (hw : 0 < w) (hh : 0 < h) (dt diss : ℝ) {x y : ℤ}
    (hx0 : 0 ≤ x) (hx1 : x < w) (hy0 : 0 ≤ y) (hy1 : y < h) :
    advectK src vel w h dt diss x y = diss • src x y := by
  rw [advectK_of_constVel src hv]
  have h1 : cuv w x - dt * ((0 : ℝ), (0 : ℝ)).1 * ((h : ℝ) / (w : ℝ)) = cuv w x := by
    norm_num
  have h2 : cuv h y - dt * ((0 : ℝ), (0 : ℝ)).2 = cuv h y := by norm_num
  rw [h1, h2, bilerp_cuv src hw hh, cidx_of_range hx0 hx1, cidx_of_range hy0 hy1]

/-! Pipeline bookkeeping lemmas. -/

theorem stepSim_decompose (cfg : Settings) (dt : ℝ) (s : SimState) :
    stepSim cfg dt s =
      stageDye cfg dt s.velocity.a.w s.velocity.a.h
        (stageGrad s.velocity.a.w s.velocity.a.h (stepThroughPress cfg dt s)) := rfl

theorem stepThroughDiv_pressure (cfg : Settings) (dt : ℝ) (s : SimState) :
    (stepThroughDiv cfg dt s).pressure = s.pressure := by
  by_cases hvort : cfg.vorticity > 0 <;>
    simp [stepThroughDiv, stageDiv, stageAdvV, stageVort, stageCurl, hvort]

theorem stepThroughDiv_dye (cfg : Settings) (dt : ℝ) (s : SimState) :
    (stepThroughDiv cfg dt s).dye = s.dye := by
  by_cases hvort : cfg.vorticity > 0 <;>
    simp [stepThroughDiv, stageDiv, stageAdvV, stageVort, stageCurl, hvort]

theorem pressLoop_read (dv : Grid ℝ) (w h : ℤ) (n : ℕ) (pr : DFBO ℝ) :
    ((pressOnce dv w h)^[n] pr).a.data =
      (fun p => pressK p dv w h)^[n] pr.a.data := by
  induction n generalizing pr with
  | zero => rfl
  | succ n ih =>
    rw [Function.iterate_succ_apply, Function.iterate_succ_apply, ih]
    rfl

theorem pressLoop_of_const {dv : Grid ℝ} {c : ℝ} (hd : ∀ x y, dv x y = 0)
    (w h : ℤ) (n : ℕ) {pr : DFBO ℝ} (hp : ∀ x y, pr.a.data x y = c) :
    ∀ x y, ((pressOnce dv w h)^[n] pr).a.data x y = c := by
  induction n generalizing pr with
  | zero => exact hp
  | succ n ih =>
    rw [Function.iterate_succ_apply]
    apply ih
    intro x y
    show pressK pr.a.data dv w h x y = c
    exact pressK_of_const hp hd w h x y

/-! Claim C3. -/

/-- C3: within one `step(dt)` the pressure projection runs exactly
`settings.pressureIters` sequential Jacobi iterations (default 18, inside the
documented 18–22 range); each iteration writes, for every cell,
`p_new[x,y] = (p(x-1,y)+p(x+1,y)+p(x,y-1)+p(x,y+1) - div[x,y]) / 4` (neighbour
reads clamped to the grid edge) into `pressure.write` reading `pressure.read`
and the divergence field, then swaps the pressure double buffer, so the
pressure read buffer after `step` is the `pressureIters`-fold composition of
the Jacobi kernel applied to the pre-step pressure read buffer — iteration
`i+1` reads the output of iteration `i`. -/
theorem c3_pressure_jacobi (cfg : Settings) (dt : ℝ) (s : SimState)
    (hw : 0 < s.velocity.a.w) (hh : 0 < s.velocity.a.h) :
    (stepSim cfg dt s).pressure.a.data =
      (fun p => pressK p (stepThroughDiv cfg dt s).divergence.data
          s.velocity.a.w s.velocity.a.h)^[cfg.pressureIters] s.pressure.a.data ∧
    (∀ (p dv : Grid ℝ) (x y : ℤ),
      pressK p dv s.velocity.a.w s.velocity.a.h x y =
        (p (cidx s.velocity.a.w (x - 1)) (cidx s.velocity.a.h y) +
          p (cidx s.velocity.a.w (x + 1)) (cidx s.velocity.a.h y) +
          p (cidx s.velocity.a.w x) (cidx s.velocity.a.h (y - 1)) +
          p (cidx s.velocity.a.w x) (cidx s.velocity.a.h (y + 1)) -
          dv (cidx s.velocity.a.w x) (cidx s.velocity.a.h y)) / 4) ∧
    defaultSettings.pressureIters = 18 ∧ 18 ≤ 22 := by
  refine ⟨?_, ?_, rfl, by norm_num⟩
  · calc (stepSim cfg dt s).pressure.a.data
        = ((pressOnce (stepThroughDiv cfg dt s).divergence.data s.velocity.a.w
            s.velocity.a.h)^[cfg.pressureIters] (stepThroughDiv cfg dt s).pressure).a.data :=
          rfl
      _ = _ := by rw [pressLoop_read, stepThroughDiv_pressure]
  · intro p dv x y
    rw [pressK_apply p dv hw hh]
    ring

/-- Witness for C3 at the freshly allocated 16×16 state with default settings. -/
theorem c3_pressure_jacobi_witness :
    0 < (allocSim 16 16).velocity.a.w ∧ 0 < (allocSim 16 16).velocity.a.h ∧
    ((stepSim defaultSettings 0 (allocSim 16 16)).pressure.a.data =
      (fun p => pressK p (stepThroughDiv defaultSettings 0 (allocSim 16 16)).divergence.data
          (allocSim 16 16).velocity.a.w (allocSim 16 16).velocity.a.h)^[
            defaultSettings.pressureIters] (allocSim 16 16).pressure.a.data ∧
    (∀ (p dv : Grid ℝ) (x y : ℤ),
      pressK p dv (allocSim 16 16).velocity.a.w (allocSim 16 16).velocity.a.h x y =
        (p (cidx (allocSim 16 16).velocity.a.w (x - 1)) (cidx (allocSim 16 16).velocity.a.h y) +
          p (cidx (allocSim 16 16).velocity.a.w (x + 1)) (cidx (allocSim 16 16).velocity.a.h y) +
          p (cidx (allocSim 16 16).velocity.a.w x) (cidx (allocSim 16 16).velocity.a.h (y - 1)) +
          p (cidx (allocSim 16 16).velocity.a.w x) (cidx (allocSim 16 16).velocity.a.h (y + 1)) -
          dv (cidx (allocSim 16 16).velocity.a.w x) (cidx (allocSim 16 16).velocity.a.h y)) / 4) ∧
    defaultSettings.pressureIters = 18 ∧ 18 ≤ 22) :=
  ⟨by decide, by decide,
    c3_pressure_jacobi defaultSettings 0 (allocSim 16 16) (by decide) (by decide)⟩

/-! Claim C6. -/

/-- C6: the gradient-subtraction pass computes, for every in-range cell,
`vel_new = vel - 0.5*(p(x+1,y)-p(x-1,y), p(x,y+1)-p(x,y-1))` by central
differences of `pressure.read` (neighbour reads clamped to the grid edge),
writing `velocity.write` from `velocity.read` and `pressure.read` as they
stand after the pressure loop, then swapping the velocity double buffer (the
post-step write side is the pre-pass read side). -/
theorem c6_gradient_subtraction (cfg : Settings) (dt : ℝ) (s : SimState)
    (hw : 0 < s.velocity.a.w) (hh : 0 < s.velocity.a.h)
    (x y : ℤ) (hx0 : 0 ≤ x) (hx1 : x < s.velocity.a.w)
    (hy0 : 0 ≤ y) (hy1 : y < s.velocity.a.h) :
    (stepSim cfg dt s).velocity.a.data x y =
      (((stepThroughPress cfg dt s).velocity.a.data x y).1 -
        0.5 * ((stepThroughPress cfg dt s).pressure.a.data
            (cidx s.velocity.a.w (x + 1)) y -
          (stepThroughPress cfg dt s).pressure.a.data
            (cidx s.velocity.a.w (x - 1)) y),
       ((stepThroughPress cfg dt s).velocity.a.data x y).2 -
        0.5 * ((stepThroughPress cfg dt s).pressure.a.data x
            (cidx s.velocity.a.h (y + 1)) -
          (stepThroughPress cfg dt s).pressure.a.data x
            (cidx s.velocity.a.h (y - 1)))) ∧
    (stepSim cfg dt s).velocity.b = (stepThroughPress cfg dt s).velocity.a := by
  constructor
  · have h1 : (stepSim cfg dt s).velocity.a.data x y =
        gradK (stepThroughPress cfg dt s).velocity.a.data
          (stepThroughPress cfg dt s).pressure.a.data
          s.velocity.a.w s.velocity.a.h x y := rfl
    rw [h1, gradK_apply _ _ hw hh, cidx_of_range hx0 hx1, cidx_of_range hy0 hy1]
  · rfl

/-- Witness for C6 at the freshly allocated 16×16 state, cell (0,0). -/
theorem c6_gradient_subtraction_witness :
    0 < (allocSim 16 16).velocity.a.w ∧ 0 < (allocSim 16 16).velocity.a.h ∧
    (0 : ℤ) ≤ 0 ∧ (0 : ℤ) < (allocSim 16 16).velocity.a.w ∧
    ((stepSim defaultSettings 0 (allocSim 16 16)).velocity.a.data 0 0 =
      (((stepThroughPress defaultSettings 0 (allocSim 16 16)).velocity.a.data 0 0).1 -
        0.5 * ((stepThroughPress defaultSettings 0 (allocSim 16 16)).pressure.a.data
            (cidx (allocSim 16 16).velocity.a.w (0 + 1)) 0 -
          (stepThroughPress defaultSettings 0 (allocSim 16 16)).pressure.a.data
            (cidx (allocSim 16 16).velocity.a.w (0 - 1)) 0),
       ((stepThroughPress defaultSettings 0 (allocSim 16 16)).velocity.a.data 0 0).2 -
        0.5 * ((stepThroughPress defaultSettings 0 (allocSim 16 16)).pressure.a.data 0
            (cidx (allocSim 16 16).velocity.a.h (0 + 1)) -
          (stepThroughPress defaultSettings 0 (allocSim 16 16)).pressure.a.data 0
            (cidx (allocSim 16 16).velocity.a.h (0 - 1)))) ∧
    (stepSim defaultSettings 0 (allocSim 16 16)).velocity.b =
      (stepThroughPress defaultSettings 0 (allocSim 16 16)).velocity.a) :=
  ⟨by decide, by decide, by decide, by decide,
    c6_gradient_subtraction defaultSettings 0 (allocSim 16 16) (by decide) (by decide)
      0 0 (by decide) (by decide) (by decide) (by decide)⟩

/-! Claim C8. -/

/-- C8: construction fails with a distinguishable error carrying descriptive
text whenever the float render-target capability check fails: no instance is
ever returned (no silent fallback), and when WebGL2 itself is present the
error is exactly the float-framebuffer message. -/
theorem c8_float_support_required (env : GLEnv) (dprRaw : ℚ) (canvas : CanvasState)
    (opts : Options) (hf : checkFloatSupport env = false) :
    (∃ msg : String, construct env dprRaw canvas opts = Except.error msg ∧ msg ≠ "") ∧
    (∀ inst, construct env dprRaw canvas opts ≠ Except.ok inst) ∧
    (env.webgl2 = true →
      construct env dprRaw canvas opts =
        Except.error "Required float framebuffer support missing (EXT_color_buffer_float)") := by
  unfold construct
  cases hwb : env.webgl2 with
  | false =>
    rw [if_pos rfl]
    exact ⟨⟨"WebGL2 not available", rfl, by decide⟩,
      fun inst hbad => Except.noConfusion hbad,
      fun hcontra => absurd hcontra (by decide)⟩
  | true =>
    rw [if_neg (by simp), if_pos hf]
    exact ⟨⟨"Required float framebuffer support missing (EXT_color_buffer_float)",
        rfl, by decide⟩,
      fun inst hbad => Except.noConfusion hbad, fun _ => rfl⟩

/-- Witness for C8: WebGL2 present, `EXT_color_buffer_float` absent. -/
theorem c8_float_support_required_witness :
    checkFloatSupport ⟨true, false⟩ = false ∧
    ((∃ msg : String,
        construct ⟨true, false⟩ 1 ⟨800, 600, 300, 150⟩ {} = Except.error msg ∧ msg ≠ "") ∧
     (∀ inst, construct ⟨true, false⟩ 1 ⟨800, 600, 300, 150⟩ {} ≠ Except.ok inst) ∧
     (GLEnv.webgl2 ⟨true, false⟩ = true →
       construct ⟨true, false⟩ 1 ⟨800, 600, 300, 150⟩ {} =
         Except.error "Required float framebuffer support missing (EXT_color_buffer_float)")) :=
  ⟨rfl, c8_float_support_required ⟨true, false⟩ 1 ⟨800, 600, 300, 150⟩ {} rfl⟩

/-! Claim C9. -/

/-- C9: splat is total over its numeric inputs: the Gaussian divisor
`r*r + 1e-6` is strictly positive for every radius (zero and negative radii
included), the per-cell weight `exp(-|cell-point|^2/(r*r+1e-6))` always lies
in (0, 1], and for every point (inside or outside the unit square) the dye
splat merely adds `value * weight` (plus 1 in alpha) to the existing cell
value — no input faults. -/
theorem c9_splat_total (pt : Vec2) (val : Vec3) (r : ℝ) (s : SimState) (x y : ℤ)
    (hw : 0 < s.dye.a.w) (hh : 0 < s.dye.a.h)
    (hx0 : 0 ≤ x) (hx1 : x < s.dye.a.w) (hy0 : 0 ≤ y) (hy1 : y < s.dye.a.h) :
    (0 < r * r + 1e-6) ∧
    (0 < splatA pt r s.dye.a.w s.dye.a.h x y ∧ splatA pt r s.dye.a.w s.dye.a.h x y ≤ 1) ∧
    (splatOp pt val r "dye" s).dye.a.data x y =
      ((s.dye.a.data x y).1 + val.1 * splatA pt r s.dye.a.w s.dye.a.h x y,
       (s.dye.a.data x y).2.1 + val.2.1 * splatA pt r s.dye.a.w s.dye.a.h x y,
       (s.dye.a.data x y).2.2.1 + val.2.2 * splatA pt r s.dye.a.w s.dye.a.h x y,
       (s.dye.a.data x y).2.2.2 + 1) := by
  have he6 : (0 : ℝ) < 1e-6 := by norm_num
  have hdpos : (0 : ℝ) < r * r + 1e-6 := by
    have := mul_self_nonneg r
    linarith
  refine ⟨hdpos, ⟨Real.exp_pos _, ?_⟩, ?_⟩
  · simp only [splatA]
    apply Real.exp_le_one_iff.mpr
    have hnum : (0 : ℝ) ≤ (cuv s.dye.a.w x - pt.1) * (cuv s.dye.a.w x - pt.1) +
        (cuv s.dye.a.h y - pt.2) * (cuv s.dye.a.h y - pt.2) :=
      add_nonneg (mul_self_nonneg _) (mul_self_nonneg _)
    rw [neg_div]
    exact neg_nonpos_of_nonneg (div_nonneg hnum (le_of_lt hdpos))
  · have h1 : (splatOp pt val r "dye" s).dye.a.data x y =
        splatDyeK s.dye.a.data s.dye.a.w s.dye.a.h pt val r x y := by
      unfold splatOp
      rw [if_neg (by decide)]
      rfl
    rw [h1]
    simp only [splatDyeK]
    rw [samp_cuv s.dye.a.data hw hh, cidx_of_range hx0 hx1, cidx_of_range hy0 hy1]

/-- Witness for C9: a negative radius and a point outside the unit square on
the freshly allocated 16×16 state, cell (3,4). -/
theorem c9_splat_total_witness :
    0 < (allocSim 16 16).dye.a.w ∧ 0 < (allocSim 16 16).dye.a.h ∧
    (0 : ℤ) ≤ 3 ∧ (3 : ℤ) < (allocSim 16 16).dye.a.w ∧
    ((0 < (-2 : ℝ) * (-2) + 1e-6) ∧
     (0 < splatA (5, -7) (-2) (allocSim 16 16).dye.a.w (allocSim 16 16).dye.a.h 3 4 ∧
       splatA (5, -7) (-2) (allocSim 16 16).dye.a.w (allocSim 16 16).dye.a.h 3 4 ≤ 1) ∧
     (splatOp (5, -7) (1, 2, 3) (-2) "dye" (allocSim 16 16)).dye.a.data 3 4 =
      (((allocSim 16 16).dye.a.data 3 4).1 +
          1 * splatA (5, -7) (-2) (allocSim 16 16).dye.a.w (allocSim 16 16).dye.a.h 3 4,
       ((allocSim 16 16).dye.a.data 3 4).2.1 +
          2 * splatA (5, -7) (-2) (allocSim 16 16).dye.a.w (allocSim 16 16).dye.a.h 3 4,
       ((allocSim 16 16).dye.a.data 3 4).2.2.1 +
          3 * splatA (5, -7) (-2) (allocSim 16 16).dye.a.w (allocSim 16 16).dye.a.h 3 4,
       ((allocSim 16 16).dye.a.data 3 4).2.2.2 + 1)) :=
  ⟨by decide, by decide, by decide, by decide,
    c9_splat_total (5, -7) (1, 2, 3) (-2) (allocSim 16 16) 3 4
      (by decide) (by decide) (by decide) (by decide) (by decide) (by decide)⟩

/-! Claim C10. -/

/-- C10: for every `targetKind` that is not exactly the string `"velocity"` —
including `"dye"`, misspellings such as `"Velocity"`, or any other value —
`splat` writes its Gaussian contribution into the dye double buffer (write
side from read side, then swap), leaves the velocity field untouched, and the
operation is total (never raises); only the exact string `"velocity"` selects
the velocity field, in which case the dye field is untouched. -/
theorem c10_splat_target_dispatch (pt : Vec2) (val : Vec3) (r : ℝ) (s : SimState)
    (target : String) (ht : target ≠ "velocity") :
    (splatOp pt val r target s).velocity = s.velocity ∧
    (splatOp pt val r target s).dye.a.data =
      splatDyeK s.dye.a.data s.dye.a.w s.dye.a.h pt val r ∧
    (splatOp pt val r target s).dye.b = s.dye.a ∧
    (splatOp pt val r "velocity" s).dye = s.dye ∧
    (splatOp pt val r "velocity" s).velocity.a.data =
      splatVelK s.velocity.a.data s.velocity.a.w s.velocity.a.h pt val r := by
  unfold splatOp
  rw [if_neg ht, if_pos rfl]
  exact ⟨rfl, rfl, rfl, rfl, rfl⟩

/-- Witness for C10 with the misspelt target `"Velocity"`. -/
theorem c10_splat_target_dispatch_witness :
    ("Velocity" : String) ≠ "velocity" ∧
    ((splatOp (0.5, 0.5) (1, 0, 0) 0.1 "Velocity" (allocSim 16 16)).velocity =
        (allocSim 16 16).velocity ∧
     (splatOp (0.5, 0.5) (1, 0, 0) 0.1 "Velocity" (allocSim 16 16)).dye.a.data =
        splatDyeK (allocSim 16 16).dye.a.data (allocSim 16 16).dye.a.w
          (allocSim 16 16).dye.a.h (0.5, 0.5) (1, 0, 0) 0.1 ∧
     (splatOp (0.5, 0.5) (1, 0, 0) 0.1 "Velocity" (allocSim 16 16)).dye.b =
        (allocSim 16 16).dye.a ∧
     (splatOp (0.5, 0.5) (1, 0, 0) 0.1 "velocity" (allocSim 16 16)).dye =
        (allocSim 16 16).dye ∧
     (splatOp (0.5, 0.5) (1, 0, 0) 0.1 "velocity" (allocSim 16 16)).velocity.a.data =
        splatVelK (allocSim 16 16).velocity.a.data (allocSim 16 16).velocity.a.w
          (allocSim 16 16).velocity.a.h (0.5, 0.5) (1, 0, 0) 0.1) :=
  ⟨by decide,
    c10_splat_target_dispatch (0.5, 0.5) (1, 0, 0) 0.1 (allocSim 16 16) "Velocity"
      (by decide)⟩

/-! Dimension bookkeeping for claim C7. -/

theorem pressLoop_dims (dv : Grid ℝ) (w h : ℤ) (n : ℕ) {pr : DFBO ℝ} {W H : ℤ}
    (h1 : pr.a.w = W) (h2 : pr.a.h = H) (h3 : pr.b.w = W) (h4 : pr.b.h = H) :
    ((pressOnce dv w h)^[n] pr).a.w = W ∧ ((pressOnce dv w h)^[n] pr).a.h = H ∧
    ((pressOnce dv w h)^[n] pr).b.w = W ∧ ((pressOnce dv w h)^[n] pr).b.h = H := by
  induction n generalizing pr with
  | zero => exact ⟨h1, h2, h3, h4⟩
  | succ n ih =>
    rw [Function.iterate_succ_apply]
    exact ih h3 h4 h1 h2

theorem allocSim_sameDims (w h : ℤ) :
    sameDims (allocSim w h) ∧ (allocSim w h).velocity.a.w = w ∧
      (allocSim w h).velocity.a.h = h := by
  simp [sameDims, allocSim]

theorem stageCurl_sameDims (w' h' : ℤ) {s : SimState} (hs : sameDims s) :
    sameDims (stageCurl w' h' s) ∧
    (stageCurl w' h' s).velocity.a.w = s.velocity.a.w ∧
    (stageCurl w' h' s).velocity.a.h = s.velocity.a.h := by
  obtain ⟨h1, h2, h3, h4, h5, h6, h7, h8, h9, h10, h11, h12, h13, h14⟩ := hs
  simp only [stageCurl, sameDims]
  refine ⟨⟨?_, ?_, ?_, ?_, ?_, ?_, ?_, ?_, ?_, ?_, ?_, ?_, ?_, ?_⟩, ?_, ?_⟩ <;>
    first
      | trivial
      | omega

theorem stageVort_sameDims (cfg : Settings) (dt : ℝ) (w' h' : ℤ) {s : SimState}
    (hs : sameDims s) :
    sameDims (stageVort cfg dt w' h' s) ∧
    (stageVort cfg dt w' h' s).velocity.a.w = s.velocity.a.w ∧
    (stageVort cfg dt w' h' s).velocity.a.h = s.velocity.a.h := by
  obtain ⟨h1, h2, h3, h4, h5, h6, h7, h8, h9, h10, h11, h12, h13, h14⟩ := hs
  by_cases hvort : cfg.vorticity > 0 <;>
    simp only [stageVort, hvort, if_true, if_false, ite_true, ite_false,
      DFBO.swap, DFBO.writeData, sameDims] <;>
    refine ⟨⟨?_, ?_, ?_, ?_, ?_, ?_, ?_, ?_, ?_, ?_, ?_, ?_, ?_, ?_⟩, ?_, ?_⟩ <;>
    first
      | trivial
      | omega

theorem stageAdvV_sameDims (cfg : Settings) (dt : ℝ) (w' h' : ℤ) {s : SimState}
    (hs : sameDims s) :
    sameDims (stageAdvV cfg dt w' h' s) ∧
    (stageAdvV cfg dt w' h' s).velocity.a.w = s.velocity.a.w ∧
    (stageAdvV cfg dt w' h' s).velocity.a.h = s.velocity.a.h := by
  obtain ⟨h1, h2, h3, h4, h5, h6, h7, h8, h9, h10, h11, h12, h13, h14⟩ := hs
  simp only [stageAdvV, DFBO.swap, DFBO.writeData, sameDims]
  refine ⟨⟨?_, ?_, ?_, ?_, ?_, ?_, ?_, ?_, ?_, ?_, ?_, ?_, ?_, ?_⟩, ?_, ?_⟩ <;>
    first
      | trivial
      | omega

theorem stageDiv_sameDims (w' h' : ℤ) {s : SimState} (hs : sameDims s) :
    sameDims (stageDiv w' h' s) ∧
    (stageDiv w' h' s).velocity.a.w = s.velocity.a.w ∧
    (stageDiv w' h' s).velocity.a.h = s.velocity.a.h := by
  obtain ⟨h1, h2, h3, h4, h5, h6, h7, h8, h9, h10, h11, h12, h13, h14⟩ := hs
  simp only [stageDiv, sameDims]
  refine ⟨⟨?_, ?_, ?_, ?_, ?_, ?_, ?_, ?_, ?_, ?_, ?_, ?_, ?_, ?_⟩, ?_, ?_⟩ <;>
    first
      | trivial
      | omega

theorem stagePress_sameDims (cfg : Settings) (w' h' : ℤ) {s : SimState}
    (hs : sameDims s) :
    sameDims (stagePress cfg w' h' s) ∧
    (stagePress cfg w' h' s).velocity.a.w = s.velocity.a.w ∧
    (stagePress cfg w' h' s).velocity.a.h = s.velocity.a.h := by
  obtain ⟨h1, h2, h3, h4, h5, h6, h7, h8, h9, h10, h11, h12, h13, h14⟩ := hs
  obtain ⟨p1, p2, p3, p4⟩ :=
    pressLoop_dims s.divergence.data w' h' cfg.pressureIters h3 h4 h5 h6
  simp only [stagePress, sameDims]
  refine ⟨⟨?_, ?_, ?_, ?_, ?_, ?_, ?_, ?_, ?_, ?_, ?_, ?_, ?_, ?_⟩, ?_, ?_⟩ <;>
    first
      | trivial
      | omega

theorem stageGrad_sameDims (w' h' : ℤ) {s : SimState} (hs : sameDims s) :
    sameDims (stageGrad w' h' s) ∧
    (stageGrad w' h' s).velocity.a.w = s.velocity.a.w ∧
    (stageGrad w' h' s).velocity.a.h = s.velocity.a.h := by
  obtain ⟨h1, h2, h3, h4, h5, h6, h7, h8, h9, h10, h11, h12, h13, h14⟩ := hs
  simp only [stageGrad, DFBO.swap, DFBO.writeData, sameDims]
  refine ⟨⟨?_, ?_, ?_, ?_, ?_, ?_, ?_, ?_, ?_, ?_, ?_, ?_, ?_, ?_⟩, ?_, ?_⟩ <;>
    first
      | trivial
      | omega

theorem stageDye_sameDims (cfg : Settings) (dt : ℝ) (w' h' : ℤ) {s : SimState}
    (hs : sameDims s) :
    sameDims (stageDye cfg dt w' h' s) ∧
    (stageDye cfg dt w' h' s).velocity.a.w = s.velocity.a.w ∧
    (stageDye cfg dt w' h' s).velocity.a.h = s.velocity.a.h := by
  obtain ⟨h1, h2, h3, h4, h5, h6, h7, h8, h9, h10, h11, h12, h13, h14⟩ := hs
  simp only [stageDye, DFBO.swap, DFBO.writeData, sameDims]
  refine ⟨⟨?_, ?_, ?_, ?_, ?_, ?_, ?_, ?_, ?_, ?_, ?_, ?_, ?_, ?_⟩, ?_, ?_⟩ <;>
    first
      | trivial
      | omega

theorem stepSim_sameDims (cfg : Settings) (dt : ℝ) {s : SimState} (hs : sameDims s) :
    sameDims (stepSim cfg dt s) ∧
    (stepSim cfg dt s).velocity.a.w = s.velocity.a.w ∧
    (stepSim cfg dt s).velocity.a.h = s.velocity.a.h := by
  have t1 := stageCurl_sameDims s.velocity.a.w s.velocity.a.h hs
  have t2 := stageVort_sameDims cfg dt s.velocity.a.w s.velocity.a.h t1.1
  have t3 := stageAdvV_sameDims cfg dt s.velocity.a.w s.velocity.a.h t2.1
  have t4 := stageDiv_sameDims s.velocity.a.w s.velocity.a.h t3.1
  have t5 := stagePress_sameDims cfg s.velocity.a.w s.velocity.a.h t4.1
  have t6 := stageGrad_sameDims s.velocity.a.w s.velocity.a.h t5.1
  have t7 := stageDye_sameDims cfg dt s.velocity.a.w s.velocity.a.h t6.1
  refine ⟨t7.1, ?_, ?_⟩ <;>
    simp only [stepSim] <;> omega

theorem splatOp_sameDims (pt : Vec2) (val : Vec3) (r : ℝ) (target : String)
    {s : SimState} (hs : sameDims s) :
    sameDims (splatOp pt val r target s) ∧
    (splatOp pt val r target s).velocity.a.w = s.velocity.a.w ∧
    (splatOp pt val r target s).velocity.a.h = s.velocity.a.h := by
  obtain ⟨h1, h2, h3, h4, h5, h6, h7, h8, h9, h10, h11, h12, h13, h14⟩ := hs
  by_cases ht : target = "velocity" <;>
    simp only [splatOp, ht, if_true, if_false, ite_true, ite_false,
      DFBO.swap, DFBO.writeData, sameDims] <;>
    refine ⟨⟨?_, ?_, ?_, ?_, ?_, ?_, ?_, ?_, ?_, ?_, ?_, ?_, ?_, ?_⟩, ?_, ?_⟩ <;>
    first
      | trivial
      | omega

/-! Claim C7. -/

/-- C7: every allocation creates the five fields at identical dimensions, and
at every instant afterwards all five fields share identical width and height:
`step` and `splat` preserve the invariant without changing the dimensions,
while `resize` and `reset` reestablish it (they are the only operations that
may change the dimensions, by reallocating). -/
theorem c7_uniform_field_dims :
    (∀ w h : ℤ, sameDims (allocSim w h) ∧ (allocSim w h).velocity.a.w = w ∧
      (allocSim w h).velocity.a.h = h) ∧
    (∀ (cfg : Settings) (dt : ℝ) (s : SimState), sameDims s →
      sameDims (stepSim cfg dt s) ∧
      (stepSim cfg dt s).velocity.a.w = s.velocity.a.w ∧
      (stepSim cfg dt s).velocity.a.h = s.velocity.a.h) ∧
    (∀ (pt : Vec2) (val : Vec3) (r : ℝ) (target : String) (s : SimState), sameDims s →
      sameDims (splatOp pt val r target s) ∧
      (splatOp pt val r target s).velocity.a.w = s.velocity.a.w ∧
      (splatOp pt val r target s).velocity.a.h = s.velocity.a.h) ∧
    (∀ (dprRaw : ℚ) (st : FluidState), sameDims st.sim →
      sameDims (resizeOp dprRaw st).sim) ∧
    (∀ st : FluidState, sameDims (resetOp st).sim) := by
  refine ⟨allocSim_sameDims, fun cfg dt s hs => stepSim_sameDims cfg dt hs,
    fun pt val r target s hs => splatOp_sameDims pt val r target hs, ?_, ?_⟩
  · intro dprRaw st hs
    simp only [resizeOp]
    split <;> split <;>
      first
        | exact hs
        | exact (allocSim_sameDims _ _).1
  · intro st
    exact (allocSim_sameDims _ _).1

/-- Witness for C7: the freshly allocated 16×16 state satisfies the invariant
hypothesis of the preservation parts. -/
theorem c7_uniform_field_dims_witness :
    sameDims (allocSim 16 16) ∧
    (sameDims (stepSim defaultSettings 0 (allocSim 16 16)) ∧
      (stepSim defaultSettings 0 (allocSim 16 16)).velocity.a.w =
        (allocSim 16 16).velocity.a.w ∧
      (stepSim defaultSettings 0 (allocSim 16 16)).velocity.a.h =
        (allocSim 16 16).velocity.a.h) :=
  ⟨((c7_uniform_field_dims.1 16 16).1 : sameDims (allocSim 16 16)),
    c7_uniform_field_dims.2.1 defaultSettings 0 (allocSim 16 16)
      (c7_uniform_field_dims.1 16 16).1⟩

/-! Evaluation helpers for the step pipeline on concrete states. -/

theorem samp_center {V : Type} (g : Grid V) {w h : ℤ} (hw : 0 < w) (hh : 0 < h)
    (a b : ℤ) :
    samp g w h (((a : ℝ) + 1/2) / (w : ℝ)) (((b : ℝ) + 1/2) / (h : ℝ)) =
      g (cidx w a) (cidx h b) :=
  samp_cuv g hw hh a b

theorem bilerp_row {V : Type} [AddCommGroup V] [Module ℝ V] (g : Grid V) {w h : ℤ}
    (hw : 0 < w) (hh : 0 < h) (u v : ℝ) (ix iy : ℤ) (fx : ℝ)
    (hxx : u * (w : ℝ) - 1/2 = (ix : ℝ) + fx) (hfx0 : 0 ≤ fx) (hfx1 : fx < 1)
    (hyy : v * (h : ℝ) - 1/2 = (iy : ℝ)) :
    bilerp g w h u v =
      mix (g (cidx w ix) (cidx h iy)) (g (cidx w (ix + 1)) (cidx h iy)) fx := by
  have hfl : ⌊(ix : ℝ) + fx⌋ = ix := by
    rw [Int.floor_eq_iff]
    constructor
    · linarith
    · linarith
  have hfy : ⌊(iy : ℝ)⌋ = iy := Int.floor_intCast iy
  simp only [bilerp, hxx, hyy, hfl, hfy, add_sub_cancel_left, sub_self, mix_zero]
  have hcoord : ((ix : ℝ) + 1/2) / (w : ℝ) + 1/(w : ℝ) =
      (((ix + 1 : ℤ) : ℝ) + 1/2) / (w : ℝ) := by
    push_cast
    ring
  rw [samp_center g hw hh, hcoord, samp_center g hw hh]

theorem stageVort_vel_const (cfg : Settings) (dt : ℝ) (w' h' : ℤ) {s : SimState}
    {cv : Vec2} (hv : ∀ x y, s.velocity.a.data x y = cv) :
    ∀ a b, (stageVort cfg dt w' h' (stageCurl w' h' s)).velocity.a.data a b = cv := by
  intro a b
  by_cases hvort : cfg.vorticity > 0
  · simp only [stageVort, hvort, if_true, ite_true, stageCurl, DFBO.swap, DFBO.writeData]
    exact vortK_of_zeroCurl hv (fun p q => curlK_of_const hv w' h' p q) w' h' dt
      cfg.vorticity a b
  · simp only [stageVort, hvort, if_false, ite_false, stageCurl]
    exact hv a b

theorem advChain_vel_const (cfg : Settings) (dt : ℝ) (w' h' : ℤ) {s : SimState}
    {cv : Vec2} (hv : ∀ x y, s.velocity.a.data x y = cv) :
    ∀ a b, (stageAdvV cfg dt w' h' (stageVort cfg dt w' h'
        (stageCurl w' h' s))).velocity.a.data a b = cfg.velDissipation • cv := by
  intro a b
  simp only [stageAdvV, DFBO.swap, DFBO.writeData]
  exact advectK_of_const (stageVort_vel_const cfg dt w' h' hv)
    (stageVort_vel_const cfg dt w' h' hv) w' h' dt cfg.velDissipation a b

theorem stepThroughDiv_vel_const (cfg : Settings) (dt : ℝ) (s : SimState)
    {cv : Vec2} (hv : ∀ x y, s.velocity.a.data x y = cv) :
    ∀ a b, (stepThroughDiv cfg dt s).velocity.a.data a b = cfg.velDissipation • cv := by
  intro a b
  simp only [stepThroughDiv, stageDiv]
  exact advChain_vel_const cfg dt s.velocity.a.w s.velocity.a.h hv a b

theorem stepThroughDiv_div_zero (cfg : Settings) (dt : ℝ) (s : SimState)
    {cv : Vec2} (hv : ∀ x y, s.velocity.a.data x y = cv) :
    ∀ a b, (stepThroughDiv cfg dt s).divergence.data a b = 0 := by
  intro a b
  simp only [stepThroughDiv, stageDiv]
  exact divK_of_const (advChain_vel_const cfg dt s.velocity.a.w s.velocity.a.h hv)
    s.velocity.a.w s.velocity.a.h a b

theorem stepThroughPress_press_const (cfg : Settings) (dt : ℝ) (s : SimState)
    {cv : Vec2} {pc : ℝ} (hv : ∀ x y, s.velocity.a.data x y = cv)
    (hp : ∀ x y, s.pressure.a.data x y = pc) :
    ∀ a b, (stepThroughPress cfg dt s).pressure.a.data a b = pc := by
  have hp0 : ∀ a b, (stepThroughDiv cfg dt s).pressure.a.data a b = pc := by
    intro a b
    rw [stepThroughDiv_pressure]
    exact hp a b
  intro a b
  show ((pressOnce (stepThroughDiv cfg dt s).divergence.data s.velocity.a.w
      s.velocity.a.h)^[cfg.pressureIters] (stepThroughDiv cfg dt s).pressure).a.data a b = pc
  exact pressLoop_of_const (stepThroughDiv_div_zero cfg dt s hv) s.velocity.a.w
    s.velocity.a.h cfg.pressureIters hp0 a b

theorem stepSim_vel_const (cfg : Settings) (dt : ℝ) (s : SimState)
    {cv : Vec2} {pc : ℝ} (hv : ∀ x y, s.velocity.a.data x y = cv)
    (hp : ∀ x y, s.pressure.a.data x y = pc) :
    ∀ a b, (stepSim cfg dt s).velocity.a.data a b = cfg.velDissipation • cv := by
  intro a b
  have h1 : (stepSim cfg dt s).velocity.a.data a b =
      gradK (stepThroughPress cfg dt s).velocity.a.data
        (stepThroughPress cfg dt s).pressure.a.data
        s.velocity.a.w s.velocity.a.h a b := rfl
  rw [h1]
  exact gradK_of_constP (stepThroughPress_press_const cfg dt s hv hp)
    (stepThroughDiv_vel_const cfg dt s hv) s.velocity.a.w s.velocity.a.h a b

theorem stepSim_dye_eval (cfg : Settings) (dt : ℝ) (s : SimState)
    (hw : 0 < s.velocity.a.w) (hh : 0 < s.velocity.a.h) (x y : ℤ) :
    (stepSim cfg dt s).dye.a.data x y =
      cfg.dyeDissipation •
        bilerp s.dye.a.data s.velocity.a.w s.velocity.a.h
          (cuv s.velocity.a.w x -
            dt * ((stepSim cfg dt s).velocity.a.data (cidx s.velocity.a.w x)
                (cidx s.velocity.a.h y)).1 *
              ((s.velocity.a.h : ℝ) / (s.velocity.a.w : ℝ)))
          (cuv s.velocity.a.h y -
            dt * ((stepSim cfg dt s).velocity.a.data (cidx s.velocity.a.w x)
                (cidx s.velocity.a.h y)).2) := by
  have h1 : (stepSim cfg dt s).dye.a.data x y =
      advectK (stepThroughPress cfg dt s).dye.a.data
        (stepSim cfg dt s).velocity.a.data
        s.velocity.a.w s.velocity.a.h dt cfg.dyeDissipation x y := rfl
  have h2 : (stepThroughPress cfg dt s).dye.a.data = s.dye.a.data :=
    congrArg (fun d => d.a.data) (stepThroughDiv_dye cfg dt s)
  rw [h1, h2]
  simp only [advectK]
  rw [samp_cuv _ hw hh]

theorem splatOp_dye_eq (pt : Vec2) (v3 : Vec3) (r : ℝ) (s : SimState) :
    (splatOp pt v3 r "dye" s).dye =
      ⟨⟨splatDyeK s.dye.a.data s.dye.a.w s.dye.a.h pt v3 r, s.dye.b.w, s.dye.b.h⟩,
        s.dye.a⟩ := by
  unfold splatOp
  rw [if_neg (by decide)]
  rfl

/-! Claim C1. -/

/-- C1 (code-bug evaluation): on an 800×800 canvas at device pixel ratio 1
with the default quality scale 0.75, the first `_resize()` allocates 600×600
simulation buffers and sets the 800×800 backing store.  At the second call
the spec's no-op premise holds — the computed simulation dimensions (600×600,
recomputed identically here) equal the allocated `_w`,`_h`, and the backing
store target (800×800) is unchanged — yet the guard compares
`gl.drawingBufferWidth` (800) with the simulation width (600), fails, and the
call disposes and reallocates every field buffer: the allocation generation
increments again. -/
theorem c1_resize_second_call_reallocates :
    (resizeOp 1 stC1).gen = 1 ∧
    (resizeOp 1 stC1).simW = some 600 ∧ (resizeOp 1 stC1).simH = some 600 ∧
    (resizeOp 1 stC1).canvas.width = 800 ∧ (resizeOp 1 stC1).canvas.height = 800 ∧
    max 16 ⌊(resizeOp 1 stC1).canvas.clientW *
        (min (if (1 : ℚ) = 0 then 1 else 1) (resizeOp 1 stC1).settings.maxDPR) *
        clampQ (resizeOp 1 stC1).settings.qualityScale 0.25 1⌋ = 600 ∧
    max 2 ⌊(resizeOp 1 stC1).canvas.clientW *
        (min (if (1 : ℚ) = 0 then 1 else 1) (resizeOp 1 stC1).settings.maxDPR)⌋ =
      (resizeOp 1 stC1).canvas.width ∧
    (resizeOp 1 (resizeOp 1 stC1)).gen = (resizeOp 1 stC1).gen + 1 := by
  norm_num [resizeOp, stC1, defaultSettings, clampQ, min_def, max_def]

/-! Claim C2. -/

/-- C2 (counterexample): running `step` with dt = 1 produces a different dye
field than running it with the clamped value min(0.033, max(0, 1)) = 0.033 on
the same state, so the time increment the pipeline actually runs with is the
caller-supplied dt, not its clamp to [0, 0.033]. -/
theorem c2_step_dt_not_clamped :
    (stepSim cfgC2 1 sC2).dye.a.data 6 0 ≠
      (stepSim cfgC2 (min 0.033 (max 0 1)) sC2).dye.a.data 6 0 := by
  have hv : ∀ x y, sC2.velocity.a.data x y = ((1/8 : ℝ), (0 : ℝ)) := fun _ _ => rfl
  have hp : ∀ x y, sC2.pressure.a.data x y = (0 : ℝ) := fun _ _ => rfl
  have hw : (0 : ℤ) < sC2.velocity.a.w := by decide
  have hh : (0 : ℤ) < sC2.velocity.a.h := by decide
  have hsw : sC2.velocity.a.w = 16 := rfl
  have hsh : sC2.velocity.a.h = 16 := rfl
  have hsd : sC2.dye.a.data = dyeC2 := rfl
  have hvel : ∀ dt' : ℝ, (stepSim cfgC2 dt' sC2).velocity.a.data
      (cidx sC2.velocity.a.w 6) (cidx sC2.velocity.a.h 0) = ((1/16 : ℝ), (0 : ℝ)) := by
    intro dt'
    rw [stepSim_vel_const cfgC2 dt' sC2 hv hp]
    norm_num [cfgC2, Prod.smul_mk, smul_eq_mul]
  have hL : (stepSim cfgC2 1 sC2).dye.a.data 6 0 = ((1/2 : ℝ), 0, 0, 0) := by
    rw [stepSim_dye_eval cfgC2 1 sC2 hw hh 6 0, hvel 1]
    simp only [hsw, hsh, hsd]
    rw [bilerp_row dyeC2 (by norm_num) (by norm_num) _ _ 5 0 0
      (by norm_num [cuv]) le_rfl (by norm_num) (by norm_num [cuv])]
    rw [mix_zero]
    norm_num [cidx, dyeC2, cfgC2, Prod.smul_mk, smul_eq_mul]
  have hdt : min (0.033 : ℝ) (max 0 1) = 0.033 := by norm_num
  have hR : (stepSim cfgC2 (min 0.033 (max 0 1)) sC2).dye.a.data 6 0 =
      ((33/2000 : ℝ), 0, 0, 0) := by
    rw [hdt, stepSim_dye_eval cfgC2 0.033 sC2 hw hh 6 0, hvel 0.033]
    simp only [hsw, hsh, hsd]
    rw [bilerp_row dyeC2 (by norm_num) (by norm_num) _ _ 5 0 (967/1000)
      (by norm_num [cuv]) (by norm_num) (by norm_num) (by norm_num [cuv])]
    norm_num [mix, cidx, dyeC2, cfgC2, Prod.smul_mk, smul_eq_mul, Prod.ext_iff]
  rw [hL, hR]
  norm_num [Prod.ext_iff]

/-- C2 (amended): `step(dt)` itself applies no clamping — the pipeline runs
with exactly the dt it is given; the clamp to [0, 0.033] seconds is performed
by the frame driver `tick`, so every dt the pipeline receives from `tick`
lies in [0, 0.033] and clamping it again changes nothing about the step. -/
theorem c2_tick_dt_clamped (nowMs lastMs : ℝ) :
    0 ≤ tickDt nowMs lastMs ∧ tickDt nowMs lastMs ≤ 0.033 ∧
    min 0.033 (max 0 (tickDt nowMs lastMs)) = tickDt nowMs lastMs ∧
    (∀ (cfg : Settings) (s : SimState),
      stepSim cfg (min 0.033 (max 0 (tickDt nowMs lastMs))) s =
        stepSim cfg (tickDt nowMs lastMs) s) := by
  have h0 : 0 ≤ tickDt nowMs lastMs := by
    rw [tickDt]
    exact le_min (by norm_num) (le_max_left 0 _)
  have h1 : tickDt nowMs lastMs ≤ 0.033 := by
    rw [tickDt]
    exact min_le_left _ _
  have h2 : min 0.033 (max 0 (tickDt nowMs lastMs)) = tickDt nowMs lastMs := by
    rw [max_eq_right h0, min_eq_right h1]
  exact ⟨h0, h1, h2, fun cfg s => by rw [h2]⟩

/-! Claim C4. -/

/-- C4 (amended): if the velocity field is all-zero AND the pressure field is
constant (as it is after allocation or reset), then for every dt `step(dt)`
maps the dye field to `dye × dyeDissipation` cell-wise at every in-range cell:
the velocity stays zero through every pass (the pressure gradient of a
constant field vanishes), so the semi-Lagrangian backtrace coordinate equals
the sample coordinate and bilinear interpolation at an exact cell center
returns that cell's value. -/
theorem c4_zero_velocity_dye_dissipation (cfg : Settings) (dt : ℝ) (s : SimState)
    (pc : ℝ) (hv : ∀ x y, s.velocity.a.data x y = (0, 0))
    (hp : ∀ x y, s.pressure.a.data x y = pc)
    (hw : 0 < s.velocity.a.w) (hh : 0 < s.velocity.a.h) (x y : ℤ)
    (hx0 : 0 ≤ x) (hx1 : x < s.velocity.a.w) (hy0 : 0 ≤ y) (hy1 : y < s.velocity.a.h) :
    (stepSim cfg dt s).dye.a.data x y = cfg.dyeDissipation • s.dye.a.data x y := by
  rw [stepSim_dye_eval cfg dt s hw hh x y,
    stepSim_vel_const cfg dt s hv hp (cidx s.velocity.a.w x) (cidx s.velocity.a.h y)]
  simp only [Prod.smul_mk, smul_eq_mul, mul_zero, zero_mul, sub_zero]
  rw [bilerp_cuv _ hw hh, cidx_of_range hx0 hx1, cidx_of_range hy0 hy1]

/-- Witness for the amended C4 on a 16×16 state with zero velocity, constant
zero pressure and a position-dependent dye field, at cell (3,5). -/
theorem c4_zero_velocity_dye_dissipation_witness :
    (∀ x y, sC4w.velocity.a.data x y = ((0 : ℝ), (0 : ℝ))) ∧
    (∀ x y, sC4w.pressure.a.data x y = (0 : ℝ)) ∧
    0 < sC4w.velocity.a.w ∧ 0 < sC4w.velocity.a.h ∧
    (0 : ℤ) ≤ 3 ∧ (3 : ℤ) < sC4w.velocity.a.w ∧
    (0 : ℤ) ≤ 5 ∧ (5 : ℤ) < sC4w.velocity.a.h ∧
    (stepSim defaultSettings 0.016 sC4w).dye.a.data 3 5 =
      defaultSettings.dyeDissipation • sC4w.dye.a.data 3 5 :=
  ⟨fun _ _ => rfl, fun _ _ => rfl, by decide, by decide, by decide, by decide,
    by decide, by decide,
    c4_zero_velocity_dye_dissipation defaultSettings 0.016 sC4w 0 (fun _ _ => rfl)
      (fun _ _ => rfl) (by decide) (by decide) 3 5 (by decide) (by decide)
      (by decide) (by decide)⟩

/-- C4 (counterexample): with the velocity field all-zero but a residual
non-constant pressure field, one `step` moves dye: the Jacobi pass smooths the
pressure, gradient subtraction turns the smoothed pressure's gradient into a
nonzero velocity, and the dye advection then samples away from the cell
center, so the dye is not merely scaled by the dissipation factor. -/
theorem c4_zero_velocity_counterexample :
    (∀ x y, sC4.velocity.a.data x y = ((0 : ℝ), (0 : ℝ))) ∧
    (stepSim cfgC2 (2/125) sC4).dye.a.data 6 3 ≠
      cfgC2.dyeDissipation • sC4.dye.a.data 6 3 := by
  have hv : ∀ x y, sC4.velocity.a.data x y = ((0 : ℝ), (0 : ℝ)) := fun _ _ => rfl
  have hw : (0 : ℤ) < sC4.velocity.a.w := by decide
  have hh : (0 : ℤ) < sC4.velocity.a.h := by decide
  have hdv := stepThroughDiv_div_zero cfgC2 (2/125) sC4 hv
  have hP : (stepThroughPress cfgC2 (2/125) sC4).pressure.a.data =
      pressK pC4 (stepThroughDiv cfgC2 (2/125) sC4).divergence.data 16 16 := by
    have h1 : (stepThroughPress cfgC2 (2/125) sC4).pressure =
        (pressOnce (stepThroughDiv cfgC2 (2/125) sC4).divergence.data 16 16)^[1]
          (stepThroughDiv cfgC2 (2/125) sC4).pressure := rfl
    rw [h1, Function.iterate_one]
    show pressK (stepThroughDiv cfgC2 (2/125) sC4).pressure.a.data _ 16 16 = _
    rw [stepThroughDiv_pressure]
    rfl
  have hP73 : (stepThroughPress cfgC2 (2/125) sC4).pressure.a.data 7 3 = 1/4 := by
    rw [hP, pressK_apply pC4 _ (by norm_num) (by norm_num) 7 3, hdv]
    norm_num [pC4, cidx, min_def, max_def]
  have hP53 : (stepThroughPress cfgC2 (2/125) sC4).pressure.a.data 5 3 = 0 := by
    rw [hP, pressK_apply pC4 _ (by norm_num) (by norm_num) 5 3, hdv]
    norm_num [pC4, cidx, min_def, max_def]
  have hP64 : (stepThroughPress cfgC2 (2/125) sC4).pressure.a.data 6 4 = 0 := by
    rw [hP, pressK_apply pC4 _ (by norm_num) (by norm_num) 6 4, hdv]
    norm_num [pC4, cidx, min_def, max_def]
  have hP62 : (stepThroughPress cfgC2 (2/125) sC4).pressure.a.data 6 2 = 0 := by
    rw [hP, pressK_apply pC4 _ (by norm_num) (by norm_num) 6 2, hdv]
    norm_num [pC4, cidx, min_def, max_def]
  have hvp : ∀ a b, (stepThroughPress cfgC2 (2/125) sC4).velocity.a.data a b =
      ((0 : ℝ), (0 : ℝ)) := by
    intro a b
    calc (stepThroughPress cfgC2 (2/125) sC4).velocity.a.data a b
        = cfgC2.velDissipation • ((0 : ℝ), (0 : ℝ)) :=
          stepThroughDiv_vel_const cfgC2 (2/125) sC4 hv a b
      _ = ((0 : ℝ), (0 : ℝ)) := by simp
  have hvel : (stepSim cfgC2 (2/125) sC4).velocity.a.data 6 3 = ((-(1/8) : ℝ), 0) := by
    have h1 : (stepSim cfgC2 (2/125) sC4).velocity.a.data 6 3 =
        gradK (stepThroughPress cfgC2 (2/125) sC4).velocity.a.data
          (stepThroughPress cfgC2 (2/125) sC4).pressure.a.data 16 16 6 3 := rfl
    rw [h1, gradK_apply _ _ (by norm_num) (by norm_num) 6 3]
    norm_num [cidx, min_def, max_def]
    rw [hvp, hP73, hP53, hP64, hP62]
    norm_num [Prod.ext_iff]
  refine ⟨hv, ?_⟩
  have hL : (stepSim cfgC2 (2/125) sC4).dye.a.data 6 3 = ((2/125 : ℝ), 0, 0, 0) := by
    rw [stepSim_dye_eval cfgC2 (2/125) sC4 hw hh 6 3]
    have hc6 : cidx sC4.velocity.a.w 6 = 6 := by decide
    have hc3 : cidx sC4.velocity.a.h 3 = 3 := by decide
    rw [hc6, hc3, hvel]
    have hsd : sC4.dye.a.data = dyeC4 := rfl
    have hsw : sC4.velocity.a.w = 16 := rfl
    have hsh : sC4.velocity.a.h = 16 := rfl
    simp only [hsd, hsw, hsh]
    rw [bilerp_row dyeC4 (by norm_num) (by norm_num) _ _ 6 3 (4/125)
      (by norm_num [cuv]) (by norm_num) (by norm_num) (by norm_num [cuv])]
    norm_num [mix, cidx, min_def, max_def, dyeC4, cfgC2, Prod.smul_mk, smul_eq_mul,
      Prod.mk_add_mk, Prod.ext_iff]
  rw [hL]
  have hR : cfgC2.dyeDissipation • sC4.dye.a.data 6 3 = ((0 : ℝ), 0, 0, 0) := by
    have hsd : sC4.dye.a.data = dyeC4 := rfl
    rw [hsd]
    norm_num [dyeC4, cfgC2, Prod.smul_mk, smul_eq_mul, Prod.ext_iff]
  rw [hR]
  norm_num [Prod.ext_iff]

/-! Claim C5. -/

/-- C5 (counterexample): applying the same dye splat twice does not yield the
same stored dye field as one splat with twice the value: the splat shader
writes `base + vec4(value*a, 1.0)` into an RGBA target, so the alpha channel
gains +1 per splat — 2 after two splats versus 1 after a single double-value
splat — already at cell (0,0) of a freshly allocated 16×16 state. -/
theorem c5_splat_superposition_counterexample :
    (splatOp (0.5, 0.5) (1, 0, 0) 0.1 "dye"
        (splatOp (0.5, 0.5) (1, 0, 0) 0.1 "dye" (allocSim 16 16))).dye.a.data 0 0 ≠
      (splatOp (0.5, 0.5) ((2 : ℝ) • (1, 0, 0)) 0.1 "dye"
        (allocSim 16 16)).dye.a.data 0 0 := by
  have key : ∀ (g : Grid Vec4) (pt : Vec2) (v3 : Vec3) (r : ℝ),
      (splatDyeK g 16 16 pt v3 r 0 0).2.2.2 = (g 0 0).2.2.2 + 1 := by
    intro g pt v3 r
    simp only [splatDyeK]
    rw [samp_cuv g (by norm_num) (by norm_num)]
    have hc : cidx 16 0 = 0 := by decide
    rw [hc]
  intro hcontra
  have h4 := congrArg (fun q : Vec4 => q.2.2.2) hcontra
  simp only [splatOp_dye_eq, allocSim] at h4
  rw [key, key, key] at h4
  norm_num at h4

/-- C5 (amended): splat superposition holds in the three colour channels: two
identical dye splats give, at every in-range cell, exactly the r, g, b values
of a single splat with value 2v (the Gaussian weight is identical and the
blend is additive, never an overwrite); the stored alpha channel instead
gains +1 per splat, so after two splats it exceeds the single-splat alpha by
exactly 1. -/
theorem c5_splat_superposition_rgb (pt : Vec2) (v3 : Vec3) (r : ℝ) (s : SimState)
    (hw : 0 < s.dye.a.w) (hh : 0 < s.dye.a.h)
    (hbw : s.dye.b.w = s.dye.a.w) (hbh : s.dye.b.h = s.dye.a.h)
    (x y : ℤ) (hx0 : 0 ≤ x) (hx1 : x < s.dye.a.w) (hy0 : 0 ≤ y) (hy1 : y < s.dye.a.h) :
    ((splatOp pt v3 r "dye" (splatOp pt v3 r "dye" s)).dye.a.data x y).1 =
      ((splatOp pt ((2 : ℝ) • v3) r "dye" s).dye.a.data x y).1 ∧
    ((splatOp pt v3 r "dye" (splatOp pt v3 r "dye" s)).dye.a.data x y).2.1 =
      ((splatOp pt ((2 : ℝ) • v3) r "dye" s).dye.a.data x y).2.1 ∧
    ((splatOp pt v3 r "dye" (splatOp pt v3 r "dye" s)).dye.a.data x y).2.2.1 =
      ((splatOp pt ((2 : ℝ) • v3) r "dye" s).dye.a.data x y).2.2.1 ∧
    ((splatOp pt v3 r "dye" (splatOp pt v3 r "dye" s)).dye.a.data x y).2.2.2 =
      ((splatOp pt ((2 : ℝ) • v3) r "dye" s).dye.a.data x y).2.2.2 + 1 := by
  simp only [splatOp_dye_eq]
  rw [hbw, hbh]
  simp only [splatDyeK, Prod.smul_fst, Prod.smul_snd, smul_eq_mul]
  rw [samp_cuv _ hw hh, samp_cuv _ hw hh]
  simp only [cidx_of_range hx0 hx1, cidx_of_range hy0 hy1]
  simp only [splatDyeK]
  rw [samp_cuv _ hw hh]
  simp only [cidx_of_range hx0 hx1, cidx_of_range hy0 hy1]
  refine ⟨?_, ?_, ?_, ?_⟩ <;> ring

/-- Witness for the amended C5 on a 16×16 state at cell (2,9). -/
theorem c5_splat_superposition_rgb_witness :
    0 < sC4w.dye.a.w ∧ 0 < sC4w.dye.a.h ∧
    sC4w.dye.b.w = sC4w.dye.a.w ∧ sC4w.dye.b.h = sC4w.dye.a.h ∧
    (0 : ℤ) ≤ 2 ∧ (2 : ℤ) < sC4w.dye.a.w ∧ (0 : ℤ) ≤ 9 ∧ (9 : ℤ) < sC4w.dye.a.h ∧
    (((splatOp (0.3, 0.7) (1, 2, 3) 0.05 "dye"
          (splatOp (0.3, 0.7) (1, 2, 3) 0.05 "dye" sC4w)).dye.a.data 2 9).1 =
        ((splatOp (0.3, 0.7) ((2 : ℝ) • (1, 2, 3)) 0.05 "dye" sC4w).dye.a.data 2 9).1 ∧
      ((splatOp (0.3, 0.7) (1, 2, 3) 0.05 "dye"
          (splatOp (0.3, 0.7) (1, 2, 3) 0.05 "dye" sC4w)).dye.a.data 2 9).2.1 =
        ((splatOp (0.3, 0.7) ((2 : ℝ) • (1, 2, 3)) 0.05 "dye" sC4w).dye.a.data 2 9).2.1 ∧
      ((splatOp (0.3, 0.7) (1, 2, 3) 0.05 "dye"
          (splatOp (0.3, 0.7) (1, 2, 3) 0.05 "dye" sC4w)).dye.a.data 2 9).2.2.1 =
        ((splatOp (0.3, 0.7) ((2 : ℝ) • (1, 2, 3)) 0.05 "dye" sC4w).dye.a.data 2 9).2.2.1 ∧
      ((splatOp (0.3, 0.7) (1, 2, 3) 0.05 "dye"
          (splatOp (0.3, 0.7) (1, 2, 3) 0.05 "dye" sC4w)).dye.a.data 2 9).2.2.2 =
        ((splatOp (0.3, 0.7) ((2 : ℝ) • (1, 2, 3)) 0.05 "dye" sC4w).dye.a.data 2 9).2.2.2
          + 1) :=
  ⟨by decide, by decide, by decide, by decide, by decide, by decide, by decide, by decide,
    c5_splat_superposition_rgb (0.3, 0.7) (1, 2, 3) 0.05 sC4w (by decide) (by decide)
      (by decide) (by decide) 2 9 (by decide) (by decide) (by decide) (by decide)⟩

end

end FluidSpec
